import Mathlib

/-!
Shallow embedding of the transcript-assembly and session logic of the
AI-voice-typer repository (src/app.py and
src/real_time_audio_transcription.py), together with theorems settling
the spec's claims about it.

Conventions: Python `int` is `Int`; a Python dict field that may be
absent is `Option`; a code path that raises an uncaught exception
returns `none`; JSON word objects (`word.get("text", "")`) carry
`text : Option String`.
-/

/-- One word object of an app.py queue message: a JSON dict read with
`word.get("text", "")`, so the `text` field may be absent. -/
structure Word where
  text : Option String
deriving DecidableEq

/-- Models `" ".join([word.get("text", "") for word in words])`
(src/app.py line 209). -/
def joinWords (ws : List Word) : String :=
  String.intercalate " " (ws.map (fun w => w.text.getD ""))

/-- A Turn event as consumed by the app.py assembler: turn order, word
list and the end-of-turn flag. -/
structure TurnEvent where
  turn_order : Int
  words : List Word
  end_of_turn : Bool
deriving DecidableEq

/-- Python list item assignment `l[i] = v` with Python's negative-index
semantics: a negative `i` counts from the end; an out-of-range index
raises IndexError, modelled as `none`. -/
def pySetItem (l : List String) (i : Int) (v : String) : Option (List String) :=
  let j : Int := if i < 0 then i + l.length else i
  if 0 ≤ j ∧ j < l.length then some (l.set j.toNat v) else none

/-- The assembler core of src/app.py lines 209-213: join the word texts
with spaces; append when `turn_order >= len(full_transcript)`, otherwise
assign `full_transcript[turn_order] = transcript`. -/
def applyTurnCore (segments : List String) (turn_order : Int) (ws : List Word) :
    Option (List String) :=
  let transcript := joinWords ws
  if (segments.length : Int) ≤ turn_order then
    some (segments ++ [transcript])
  else
    pySetItem segments turn_order transcript

/-- The assembler as a function of a Turn event (src/app.py lines
206-213, with `turn_order` present in the message). -/
def applyTurn (segments : List String) (e : TurnEvent) : Option (List String) :=
  applyTurnCore segments e.turn_order e.words

/-- A raw queue message as the foreground handler of src/app.py reads
it: every consumed JSON field is optional (`message.get(...)` /
`"k" in message`). -/
structure QueueMsg where
  words : Option (List Word)
  turn_order : Option Int
  end_of_turn : Option Bool
  error : Option String
  status : Option String
deriving DecidableEq

/-- The queue message `{"error": e}` that background code enqueues. -/
def errorMsg (e : String) : QueueMsg :=
  ⟨none, none, none, some e, none⟩

/-- The queue message `{"status": "stopped"}`. -/
def stoppedMsg : QueueMsg :=
  ⟨none, none, none, none, some "stopped"⟩

/-- The pieces of Streamlit session state that the embedded functions of
src/app.py read or write.  `stream`/`thread` record whether an open
audio stream / a started thread handle is held; `queue` is the Bridge
queue contents. -/
structure AppState where
  recording : Bool
  full_transcript : List String
  error : Option String
  stop_event_set : Bool
  stream : Bool
  thread : Bool
  queue : List QueueMsg
deriving DecidableEq

/-- The foreground queue-message handler of src/app.py lines 205-218:
the `words` branch (with `turn_order = message.get("turn_order", -1)`),
then the `error` branch, then the `status` branch.  `none` models the
uncaught IndexError from `full_transcript[turn_order] = ...` (the
surrounding `try` catches only `queue.Empty`). -/
def handleMessage (s : AppState) (m : QueueMsg) : Option AppState :=
  let afterWords : Option AppState :=
    match m.words with
    | some ws =>
      (applyTurnCore s.full_transcript (m.turn_order.getD (-1)) ws).map
        (fun l => { s with full_transcript := l })
    | none => some s
  afterWords.map (fun s1 =>
    let s2 := match m.error with
      | some e => { s1 with error := some e }
      | none => s1
    if m.status = some "stopped" then { s2 with recording := false } else s2)

/-- Models `audio_stream_start` (src/app.py lines 46-59): `p.open(...)`
either succeeds (stream handle stored, return True) or raises, in which
case the exception text is wrapped into a Bridge error message and False
is returned.  The device outcome is passed in as `openResult`. -/
def audio_stream_start (openResult : Except String Unit) (s : AppState) :
    AppState × Bool :=
  match openResult with
  | .ok _ => ({ s with stream := true }, true)
  | .error e =>
    ({ s with queue := s.queue ++ [errorMsg ("Failed to open audio stream: " ++ e)] },
     false)

/-- Models `start_transcription` (src/app.py lines 110-125): reject a
missing/placeholder API key; otherwise set recording, clear error and
transcript, clear the stop event, try to open the audio stream, and
only on success store and start the background thread. -/
def start_transcription (authKey : String) (openResult : Except String Unit)
    (s : AppState) : AppState :=
  if authKey = "" ∨ authKey = "YOUR_ASSEMBLYAI_API_KEY" then
    { s with error := some "AssemblyAI API key is missing. Please add it to configure.py." }
  else
    let s1 := { s with recording := true, error := none, full_transcript := [],
                       stop_event_set := false }
    let res := audio_stream_start openResult s1
    if res.2 then { res.1 with thread := true }
    else { res.1 with recording := false }

/-- Models `stop_transcription` (src/app.py lines 127-136): set the stop
event, join the thread (no state effect), stop/close/clear the stream if
one is held, clear recording. -/
def stop_transcription (s : AppState) : AppState :=
  let s1 := { s with stop_event_set := true }
  let s2 := if s1.stream then { s1 with stream := false } else s1
  { s2 with recording := false }

/-- Outcome of one iteration of the receive loop's body (src/app.py
lines 74-86): `ws.recv()` raises ConnectionClosedOK, raises some other
exception, or yields a payload string that `json.loads` either fails on
(carrying the exception text) or decodes to a message dict. -/
inductive RecvOutcome where
  | closedOK
  | recvExc (excText : String)
  | malformed (excText : String)
  | decoded (msg : QueueMsg)
deriving DecidableEq

/-- Whether a loop iteration falls through to the next iteration or
breaks out of the `while`. -/
inductive LoopAction where
  | cont
  | brk
deriving DecidableEq

/-- One iteration of the receive loop (src/app.py lines 74-86): exit if
the stop event is set; on ConnectionClosedOK break silently; on any
other exception (including a `json.loads` failure) enqueue a
"Receive error" message and break; on a decoded dict enqueue it exactly
when it has a `words` field, and continue. -/
def receiveStep (stopSet : Bool) (o : RecvOutcome) : List QueueMsg × LoopAction :=
  if stopSet then ([], .brk)
  else
    match o with
    | .closedOK => ([], .brk)
    | .recvExc t => ([errorMsg ("Receive error: " ++ t)], .brk)
    | .malformed t => ([errorMsg ("Receive error: " ++ t)], .brk)
    | .decoded m => (if m.words.isSome then [m] else [], .cont)

/-- Outcome of one iteration of the send loop's body (src/app.py lines
62-72): the read+send succeeds, raises ConnectionClosedOK, or raises
some other exception. -/
inductive SendOutcome where
  | ok
  | closedOK
  | sendExc (excText : String)
deriving DecidableEq

/-- One iteration of the send loop (src/app.py lines 62-72): exit if the
stop event is set; on ConnectionClosedOK break silently; on any other
exception enqueue a "Send error" message and break; otherwise continue. -/
def sendStep (stopSet : Bool) (o : SendOutcome) : List QueueMsg × LoopAction :=
  if stopSet then ([], .brk)
  else
    match o with
    | .ok => ([], .cont)
    | .closedOK => ([], .brk)
    | .sendExc t => ([errorMsg ("Send error: " ++ t)], .brk)

/-- State of the two concurrently running loops of `send_receive`
(src/app.py lines 61-88): the shared stop event (set only by
`stop_transcription`, never by either loop), whether each loop is still
running, and the Bridge queue. -/
structure SessionRun where
  stopSet : Bool
  sendAlive : Bool
  recvAlive : Bool
  queue : List QueueMsg
deriving DecidableEq

/-- One scheduled iteration of the interleaving of the two loops: which
loop runs next and what its blocking call yields. -/
inductive SessionStep where
  | send (o : SendOutcome)
  | recv (o : RecvOutcome)
deriving DecidableEq

/-- Small-step interleaving semantics of `send_receive`: running a step
of a loop that has already exited is a no-op; otherwise the loop's body
runs once and the loop stays alive exactly when the body continues. -/
def runStep (s : SessionRun) : SessionStep → SessionRun
  | .send o =>
    if s.sendAlive then
      let r := sendStep s.stopSet o
      { s with queue := s.queue ++ r.1, sendAlive := r.2 = .cont }
    else s
  | .recv o =>
    if s.recvAlive then
      let r := receiveStep s.stopSet o
      { s with queue := s.queue ++ r.1, recvAlive := r.2 = .cont }
    else s

/-- Count of error messages (`"error" in message`) in a queue. -/
def errorCount (q : List QueueMsg) : Nat :=
  (q.filter (fun m => m.error.isSome)).length

/-- A word object of the typed AssemblyAI API used by
src/real_time_audio_transcription.py, where `word.text` is a plain
attribute. -/
structure AaiWord where
  text : String
deriving DecidableEq

/-- Models `" ".join(word.text for word in event.words)`
(src/real_time_audio_transcription.py line 49). -/
def joinAaiWords (ws : List AaiWord) : String :=
  String.intercalate " " (ws.map (fun w => w.text))

/-- Models `on_turn_callback` (src/real_time_audio_transcription.py
lines 47-54): if the event has a `words` attribute, join the texts; only
a non-empty transcript is enqueued, tagged "final" or "partial" by the
end-of-turn flag.  Returns the list of messages enqueued. -/
def on_turn_callback (words : Option (List AaiWord)) (end_of_turn : Bool) :
    List (String × String) :=
  match words with
  | some ws =>
    let transcript := joinAaiWords ws
    if transcript ≠ "" then
      if end_of_turn then [("final", transcript)] else [("partial", transcript)]
    else []
  | none => []

/-- The transcript state of src/real_time_audio_transcription.py's
foreground loop: the finalized segments and the in-flight text. -/
structure RTState where
  full_transcript : List String
  pending_transcript : String
deriving DecidableEq

/-- One step of the drain loop of src/real_time_audio_transcription.py
lines 138-144: a "partial" message replaces the in-flight text, a
"final" message appends a segment and clears the in-flight text. -/
def drainMsg (s : RTState) (m : String × String) : RTState :=
  if m.1 = "partial" then { s with pending_transcript := m.2 }
  else if m.1 = "final" then
    { full_transcript := s.full_transcript ++ [m.2], pending_transcript := "" }
  else s

/-- When `0 <= turn_order < len(segments)` the assembler takes the
overwrite branch: `segments[turn_order] = transcript`. -/
theorem applyTurnCore_of_lt (s : List String) (k : Int) (ws : List Word)
    (h0 : 0 ≤ k) (hlt : k < (s.length : Int)) :
    applyTurnCore s k ws = some (s.set k.toNat (joinWords ws)) := by
  simp only [applyTurnCore, pySetItem]
  rw [if_neg (not_le.mpr hlt), if_neg (not_lt.mpr h0), if_pos ⟨h0, hlt⟩]

/-- When `turn_order >= len(segments)` the assembler appends. -/
theorem applyTurnCore_of_ge (s : List String) (k : Int) (ws : List Word)
    (hge : (s.length : Int) ≤ k) :
    applyTurnCore s k ws = some (s ++ [joinWords ws]) := by
  simp only [applyTurnCore]
  rw [if_pos hge]

/-- At `turn_order = -1` on an empty transcript the overwrite branch
raises IndexError. -/
theorem applyTurnCore_neg_one_nil (ws : List Word) :
    applyTurnCore [] (-1) ws = none := by
  simp only [applyTurnCore, pySetItem]
  norm_num

/-- At `turn_order = -1` on a non-empty transcript, Python's negative
indexing overwrites the last element. -/
theorem applyTurnCore_neg_one (l : List String) (ws : List Word) (h : l ≠ []) :
    applyTurnCore l (-1) ws = some (l.set (l.length - 1) (joinWords ws)) := by
  have hlen : 0 < l.length := List.length_pos.mpr h
  have hidx : ((-1 : Int) + l.length).toNat = l.length - 1 := by omega
  simp only [applyTurnCore, pySetItem]
  rw [if_neg (by omega), if_pos (by norm_num : (-1 : Int) < 0),
    if_pos (by constructor <;> omega), hidx]

/-- A message with a `words` field and no `turn_order`, `error` or
`status` field runs exactly the assembler at `turn_order = -1`. -/
theorem handleMessage_words_only (s : AppState) (ws : List Word) :
    handleMessage s ⟨some ws, none, none, none, none⟩ =
      (applyTurnCore s.full_transcript (-1) ws).map
        (fun l => { s with full_transcript := l }) := by
  cases h : applyTurnCore s.full_transcript (-1) ws <;>
    simp [handleMessage, h]

/-- Claim C1: for a Turn event with `0 <= turnOrder <= len(segments)`,
applying the event succeeds and the new length is
`max(len(segments), turnOrder+1)`: an append exactly when
`turnOrder = len(segments)`, length unchanged when
`turnOrder < len(segments)`. -/
theorem C1_apply_length (s : List String) (e : TurnEvent)
    (h0 : 0 ≤ e.turn_order) (h1 : e.turn_order ≤ (s.length : Int)) :
    ∃ res, applyTurn s e = some res ∧
      (res.length : Int) = max (s.length : Int) (e.turn_order + 1) ∧
      (e.turn_order = (s.length : Int) → res = s ++ [joinWords e.words]) ∧
      (e.turn_order < (s.length : Int) → res.length = s.length) := by
  rcases lt_or_le e.turn_order (s.length : Int) with hlt | hge
  · refine ⟨s.set e.turn_order.toNat (joinWords e.words), ?_, ?_, ?_, ?_⟩
    · rw [applyTurn, applyTurnCore_of_lt s _ _ h0 hlt]
    · rw [List.length_set]; omega
    · intro hc; omega
    · intro _; exact List.length_set s _ _
  · have heq : e.turn_order = (s.length : Int) := le_antisymm h1 hge
    refine ⟨s ++ [joinWords e.words], ?_, ?_, ?_, ?_⟩
    · rw [applyTurn, applyTurnCore_of_ge s _ _ hge]
    · rw [List.length_append]; simp; omega
    · intro _; rfl
    · intro hc; omega

/-- Witness for C1 at `segments = ["a"]`, `turnOrder = 1`. -/
theorem C1_witness :
    ∃ res, applyTurn ["a"] ⟨1, [⟨some "b"⟩], false⟩ = some res ∧
      (res.length : Int) =
        max (((["a"] : List String).length : Int)) (1 + 1) ∧
      ((1 : Int) = ((["a"] : List String).length : Int) →
        res = ["a"] ++ [joinWords [⟨some "b"⟩]]) ∧
      ((1 : Int) < ((["a"] : List String).length : Int) →
        res.length = (["a"] : List String).length) :=
  C1_apply_length ["a"] ⟨1, [⟨some "b"⟩], false⟩ (by decide) (by decide)

/-- Counterexample to claim C2: the app.py assembler has no empty-text
check, so at `segments = []` the empty-words event
`{turnOrder: 0, words: []}` appends the empty string instead of leaving
the state unchanged. -/
theorem C2_counterexample :
    applyTurn [] ⟨0, [], true⟩ = some [""] ∧
      ([""] : List String) ≠ [] := by decide

/-- Claim C2 (amended): in real_time_audio_transcription.py an
empty-text Turn event is dropped by `on_turn_callback` before it is
enqueued, so draining leaves the transcript state unchanged; the app.py
assembler itself performs no empty-text check. -/
theorem C2_empty_text_noop_rt (ws : List AaiWord) (b : Bool) (s : RTState)
    (h : joinAaiWords ws = "") :
    on_turn_callback (some ws) b = [] ∧
      List.foldl drainMsg s (on_turn_callback (some ws) b) = s := by
  have h1 : on_turn_callback (some ws) b = [] := by
    simp [on_turn_callback, h]
  exact ⟨h1, by rw [h1]; rfl⟩

/-- Witness for C2 (amended) at `words = []`. -/
theorem C2_witness :
    on_turn_callback (some ([] : List AaiWord)) true = [] ∧
      List.foldl drainMsg (⟨["x"], "y"⟩ : RTState)
          (on_turn_callback (some ([] : List AaiWord)) true) =
        (⟨["x"], "y"⟩ : RTState) :=
  C2_empty_text_noop_rt [] true ⟨["x"], "y"⟩ (by decide)

/-- Claim C3: with `0 <= turnOrder < len(segments)` and non-empty joined
text, the event overwrites `segments[turnOrder]` with the space-joined
word texts and changes no other index. -/
theorem C3_overwrite (s : List String) (e : TurnEvent)
    (h0 : 0 ≤ e.turn_order) (hlt : e.turn_order < (s.length : Int))
    (_hne : joinWords e.words ≠ "") :
    applyTurn s e = some (s.set e.turn_order.toNat (joinWords e.words)) ∧
      (s.set e.turn_order.toNat (joinWords e.words))[e.turn_order.toNat]? =
        some (joinWords e.words) ∧
      ∀ j : Nat, j ≠ e.turn_order.toNat →
        (s.set e.turn_order.toNat (joinWords e.words))[j]? = s[j]? := by
  refine ⟨by rw [applyTurn, applyTurnCore_of_lt s _ _ h0 hlt], ?_, ?_⟩
  · exact List.getElem?_set_eq_of_lt _ (by omega)
  · intro j hj
    exact List.getElem?_set_ne (Ne.symm hj)

/-- Witness for C3: the spec's revision example, `segments = ["hello"]`
revised by `{turnOrder: 0, words: [{"a"}, {"fix"}], endOfTurn: true}`
yields `["a fix"]`. -/
theorem C3_witness :
    applyTurn ["hello"] ⟨0, [⟨some "a"⟩, ⟨some "fix"⟩], true⟩ =
      some ["a fix"] := by
  rw [(C3_overwrite ["hello"] ⟨0, [⟨some "a"⟩, ⟨some "fix"⟩], true⟩
    (by decide) (by decide) (by decide)).1]
  rfl

/-- Counterexample to claim C4: with a gap (`turnOrder = 1` on empty
`segments`) the final event `{turnOrder: 1, words: [{"hi"}],
endOfTurn: true}` appends on each application, so applying it twice
yields `["hi", "hi"]`, not the single application's `["hi"]`. -/
theorem C4_counterexample :
    (applyTurn [] ⟨1, [⟨some "hi"⟩], true⟩).bind
        (fun s2 => applyTurn s2 ⟨1, [⟨some "hi"⟩], true⟩) ≠
      applyTurn [] ⟨1, [⟨some "hi"⟩], true⟩ := by decide

/-- Claim C4 (amended): applying the same final Turn event twice yields
the same `segments` as applying it once, provided
`0 <= turnOrder <= len(segments)` at the first application (the no-gap
case); with `turnOrder > len(segments)` each application appends again. -/
theorem C4_idempotent_no_gap (s : List String) (e : TurnEvent)
    (_hf : e.end_of_turn = true) (h0 : 0 ≤ e.turn_order)
    (h1 : e.turn_order ≤ (s.length : Int)) :
    (applyTurn s e).bind (fun s2 => applyTurn s2 e) = applyTurn s e := by
  rcases lt_or_le e.turn_order (s.length : Int) with hlt | hge
  · rw [applyTurn, applyTurnCore_of_lt s _ _ h0 hlt, Option.some_bind]
    rw [applyTurn, applyTurnCore_of_lt _ _ _ h0 (by rw [List.length_set]; exact hlt)]
    rw [List.set_set]
  · have heq : e.turn_order.toNat = s.length := by omega
    rw [applyTurn, applyTurnCore_of_ge s _ _ hge, Option.some_bind]
    rw [applyTurn,
      applyTurnCore_of_lt _ _ _ h0 (by rw [List.length_append]; simp; omega)]
    rw [heq, List.set_append_right _ _ (Nat.le_refl _), Nat.sub_self]
    rfl

/-- Witness for C4 (amended) at `segments = ["x"]`, `turnOrder = 0`. -/
theorem C4_witness :
    (applyTurn ["x"] ⟨0, [⟨some "y"⟩], true⟩).bind
        (fun s2 => applyTurn s2 ⟨0, [⟨some "y"⟩], true⟩) =
      applyTurn ["x"] ⟨0, [⟨some "y"⟩], true⟩ :=
  C4_idempotent_no_gap ["x"] ⟨0, [⟨some "y"⟩], true⟩ rfl (by decide) (by decide)

/-- Claim C5: the assembler never reads `endOfTurn`; the resulting
`segments` is identical whatever the flag's value. -/
theorem C5_end_of_turn_irrelevant (s : List String) (k : Int)
    (ws : List Word) (b1 b2 : Bool) :
    applyTurn s ⟨k, ws, b1⟩ = applyTurn s ⟨k, ws, b2⟩ := rfl

/-- Counterexample to claim C6: a raw message that fails to decode
(`json.loads` raises) is caught by the receive loop's generic exception
handler, which enqueues a "Receive error" Bridge message and breaks the
loop, rather than ignoring the payload and continuing. -/
theorem C6_counterexample :
    receiveStep false (.malformed "Expecting value: line 1 column 1 (char 0)") =
      ([errorMsg ("Receive error: " ++ "Expecting value: line 1 column 1 (char 0)")],
        .brk) ∧
      ([errorMsg ("Receive error: " ++ "Expecting value: line 1 column 1 (char 0)")],
        LoopAction.brk) ≠ (([] : List QueueMsg), LoopAction.cont) := by decide

/-- Claim C6 (amended): a payload that decodes but lacks the `words`
field is ignored (nothing enqueued) and the receive loop continues; a
payload that fails to decode is handled like any receive exception: an
error message is enqueued and the loop terminates. -/
theorem C6_unrecognized_ignored (m : QueueMsg) (h : m.words = none) :
    receiveStep false (.decoded m) = ([], .cont) := by
  simp [receiveStep, h]

/-- Witness for C6 (amended) on the `{"status": "stopped"}` payload,
which has no `words` field. -/
theorem C6_witness :
    receiveStep false (.decoded stoppedMsg) = ([], .cont) :=
  C6_unrecognized_ignored stoppedMsg rfl

/-- Claim C7: when opening the audio device fails during session start
(with a valid API key), the exception is caught, an error message is
enqueued on the Bridge queue, `recording` ends up false, and no
background thread is started (the `thread` handle is untouched). -/
theorem C7_device_failure_aborts (s : AppState) (key e : String)
    (hk1 : key ≠ "") (hk2 : key ≠ "YOUR_ASSEMBLYAI_API_KEY") :
    (start_transcription key (.error e) s).recording = false ∧
      (start_transcription key (.error e) s).thread = s.thread ∧
      (start_transcription key (.error e) s).queue =
        s.queue ++ [errorMsg ("Failed to open audio stream: " ++ e)] := by
  simp [start_transcription, audio_stream_start, hk1, hk2]

/-- Witness for C7 with key "k" and device failure "busy". -/
theorem C7_witness :
    (start_transcription "k" (.error "busy")
        ⟨false, [], none, false, false, false, []⟩).recording = false ∧
      (start_transcription "k" (.error "busy")
          ⟨false, [], none, false, false, false, []⟩).thread =
        (⟨false, [], none, false, false, false, []⟩ : AppState).thread ∧
      (start_transcription "k" (.error "busy")
          ⟨false, [], none, false, false, false, []⟩).queue =
        (⟨false, [], none, false, false, false, []⟩ : AppState).queue ++
          [errorMsg ("Failed to open audio stream: " ++ "busy")] :=
  C7_device_failure_aborts ⟨false, [], none, false, false, false, []⟩
    "k" "busy" (by decide) (by decide)

/-- Counterexample to claim C8: on the background exit path the
foreground handler consumes `{"status": "stopped"}` and marks the
session stopped (`recording = false`) while the audio stream handle is
still open (`stream = true`) - the device is not released on this exit
path. -/
theorem C8_counterexample :
    handleMessage ⟨true, ["seg"], none, false, true, true, []⟩ stoppedMsg =
      some ⟨false, ["seg"], none, false, true, true, []⟩ ∧
      (⟨false, ["seg"], none, false, true, true, []⟩ : AppState).recording = false ∧
      (⟨false, ["seg"], none, false, true, true, []⟩ : AppState).stream = true := by
  decide

/-- Claim C8 (amended): only the explicit stop path releases the audio
stream: `stop_transcription` sets the stop event, closes the stream and
clears `recording`; on the error/remote-close exit paths the websocket
is closed by the connection context manager but the audio stream stays
open until the next explicit stop. -/
theorem C8_stop_releases_stream (s : AppState) :
    (stop_transcription s).stream = false ∧
      (stop_transcription s).recording = false ∧
      (stop_transcription s).stop_event_set = true := by
  cases h : s.stream <;> simp [stop_transcription, h]

/-- Counterexample to claim C9: after the receive loop fails with a
receive error, the stop event is still unset and the send loop is still
alive (no cancellation is signalled between the loops), and in the run
where the send loop's own send then fails, two error messages end up on
the Bridge queue, not exactly one. -/
theorem C9_counterexample :
    (List.foldl runStep ⟨false, true, true, []⟩
        [.recv (.recvExc "connection reset"), .send .ok,
          .send (.sendExc "connection reset")]).queue =
      [errorMsg "Receive error: connection reset",
        errorMsg "Send error: connection reset"] ∧
      errorCount (List.foldl runStep ⟨false, true, true, []⟩
        [.recv (.recvExc "connection reset"), .send .ok,
          .send (.sendExc "connection reset")]).queue = 2 ∧
      (runStep ⟨false, true, true, []⟩
        (.recv (.recvExc "connection reset"))).sendAlive = true ∧
      (runStep ⟨false, true, true, []⟩
        (.recv (.recvExc "connection reset"))).stopSet = false := by decide

/-- Claim C9 (amended): a receive failure terminates only the receive
loop and enqueues that loop's single error message; it does not set the
stop event and leaves the send loop running, which keeps going until its
own call fails, the connection closes, or stop is requested - and a send
failure then enqueues a second error message. -/
theorem C9_receive_error_isolated (s : SessionRun) (t : String)
    (hstop : s.stopSet = false) (hr : s.recvAlive = true) :
    runStep s (.recv (.recvExc t)) =
      { s with recvAlive := false,
               queue := s.queue ++ [errorMsg ("Receive error: " ++ t)] } := by
  simp [runStep, receiveStep, hstop, hr]

/-- Witness for C9 (amended) on a fresh active session. -/
theorem C9_witness :
    runStep ⟨false, true, true, []⟩ (.recv (.recvExc "reset")) =
      ⟨false, true, false,
        ([] : List QueueMsg) ++ [errorMsg ("Receive error: " ++ "reset")]⟩ :=
  C9_receive_error_isolated ⟨false, true, true, []⟩ "reset" rfl rfl

/-- Claim C10: a queue message with a `words` field but no `turn_order`
field is processed with `turn_order = -1`; on an empty transcript the
assignment `full_transcript[-1] = ...` raises an IndexError that the
`try` (which catches only `queue.Empty`) does not catch, and on a
non-empty transcript it silently overwrites the last segment. -/
theorem C10_missing_turn_order (s : AppState) (ws : List Word) :
    (s.full_transcript = [] →
      handleMessage s ⟨some ws, none, none, none, none⟩ = none) ∧
    (s.full_transcript ≠ [] →
      handleMessage s ⟨some ws, none, none, none, none⟩ =
        some { s with full_transcript :=
          s.full_transcript.set (s.full_transcript.length - 1) (joinWords ws) }) := by
  constructor
  · intro h
    rw [handleMessage_words_only, h, applyTurnCore_neg_one_nil]
    rfl
  · intro h
    rw [handleMessage_words_only, applyTurnCore_neg_one _ _ h]
    rfl

/-- Witness for C10 on the empty transcript: the handler raises. -/
theorem C10_witness :
    handleMessage ⟨true, [], none, false, true, true, []⟩
        ⟨some [⟨some "x"⟩], none, none, none, none⟩ = none :=
  (C10_missing_turn_order ⟨true, [], none, false, true, true, []⟩
    [⟨some "x"⟩]).1 rfl
